import Mathlib

/-!
Shallow embedding of the ProposalHQ request handlers.

The generation endpoint (src/app/api/generate/route.ts, `POST`) and the
payment-provider webhook endpoint (src/app/api/stripe/webhook/route.ts,
`POST`) are modelled as pure functions over explicit request, environment
and external-world values.  External collaborators (auth provider, store,
text-generation provider, payment provider) are supplied as data or as
function fields of a world record, so each handler becomes deterministic
and executable.
-/

namespace ProposalHQ

/-- A subscription plan, mirroring the `plan` column (`"free" | "pro"`). -/
inductive Plan where
  | free
  | pro
deriving DecidableEq

/-- One row of the `proposals` table. -/
structure ProposalRow where
  id : String
  user_id : String
  client_name : String
  notes : String
  proposal : String
  created_at : Nat
deriving DecidableEq

/-- JavaScript `s.startsWith(pre)`, evaluated on character data. -/
def jsStartsWith (s pre : String) : Bool :=
  decide (s.data.take pre.data.length = pre.data)

/-- JavaScript `s.slice(n)`, evaluated on character data. -/
def jsSlice (s : String) (n : Nat) : String :=
  String.mk (s.data.drop n)

/-- JavaScript `s.trim()`: strip leading and trailing whitespace,
evaluated on character data. -/
def jsTrim (s : String) : String :=
  String.mk (((s.data.dropWhile Char.isWhitespace).reverse.dropWhile
    Char.isWhitespace).reverse)

/-- JavaScript falsiness of an optional string value: `undefined`/`null`
and the empty string are falsy, every other string (including
whitespace-only strings) is truthy.  Mirrors `!clientName`, `!notes`,
`!token` in the handlers. -/
def jsFalsy : Option String → Bool
  | none => true
  | some s => decide (s = "")

/-- `FREE_LIMIT` from the generate route. -/
def FREE_LIMIT : Nat := 3

/-- The count query of the generate route:
`from("proposals").select(count).eq("user_id", uid).gte("created_at", startOfMonth)` —
the number of rows owned by `uid` created at or after `startOfMonth`. -/
def monthCount (store : List ProposalRow) (uid : String) (startOfMonth : Nat) : Nat :=
  (store.filter (fun r => decide (r.user_id = uid ∧ startOfMonth ≤ r.created_at))).length

/-- Server environment variables read by the generate route. -/
structure GenEnv where
  supabaseUrl : Option String
  supabaseAnon : Option String
  openaiApiKey : Option String

/-- External world of one generate request: the auth provider's answer,
the store contents and failure modes, and the text provider's answer. -/
structure GenWorld where
  /-- `supabase.auth.getUser()`: `some uid` on success, `none` on
  `authErr || !user`. -/
  authUser : Option String
  /-- `profiles.select("plan").eq("user_id", uid).maybeSingle()`:
  store error, or the (possibly absent) row's plan. -/
  profileRow : Except Unit (Option Plan)
  /-- Contents of the `proposals` table seen by the count query. -/
  store : List ProposalRow
  /-- The computed start of the current calendar month. -/
  startOfMonth : Nat
  /-- Whether the count query fails (`countErr`). -/
  countFails : Bool
  /-- `openai.chat.completions.create`: thrown error message, or
  `resp.choices?.[0]?.message?.content` (nullable). -/
  openaiResult : Except String (Option String)
  /-- `proposals.insert(...)`: `some msg` when `saveErr` occurs. -/
  insertError : Option String
  /-- Timestamp the store assigns to the inserted row. -/
  now : Nat
  /-- Identifier the store assigns to the inserted row. -/
  newId : String

/-- An inbound generate request: the `authorization` header (the code
reads `req.headers.get("authorization") || ""`) and the result of
`req.json()` — a parse error message, or the `clientName` and `notes`
fields, each possibly absent. -/
structure GenRequest where
  authHeader : String
  body : Except String (Option String × Option String)

/-- The JSON response of the generate route, one constructor per
`NextResponse.json` site. -/
inductive GenOutcome where
  | unauthorized
  | missingSupabaseEnv
  | profileLoadError
  | usageCheckError
  | quotaExceeded (limit used : Nat)
  | invalidInput
  | missingApiKey
  | caughtError (msg : String)
  | saveError (msg : String)
  | success (proposal : String) (saved : ProposalRow)
deriving DecidableEq

/-- HTTP status attached to each response site. -/
def genStatus : GenOutcome → Nat
  | .unauthorized => 401
  | .missingSupabaseEnv => 500
  | .profileLoadError => 500
  | .usageCheckError => 500
  | .quotaExceeded _ _ => 402
  | .invalidInput => 400
  | .missingApiKey => 500
  | .caughtError _ => 500
  | .saveError _ => 500
  | .success _ _ => 200

/-- The `code` field of the response body (only the quota rejection
carries one: `"FREE_LIMIT_REACHED"`). -/
def genCode : GenOutcome → Option String
  | .quotaExceeded _ _ => some "FREE_LIMIT_REACHED"
  | _ => none

/-- External calls a generate request can make, in source order. -/
inductive GenEffect where
  | authCall
  | profileQuery
  | countQuery
  | openaiCall
  | insertCall
deriving DecidableEq

/-- Steps 4–6 of the generate route (body parsing and validation, the
OpenAI call, the server-side insert), shared by the pro path and the
under-quota free path.  `effs` is the trace of calls already made. -/
def genContinue (env : GenEnv) (w : GenWorld) (req : GenRequest) (uid : String)
    (effs : List GenEffect) : GenOutcome × List GenEffect :=
  match req.body with
  | .error msg => (.caughtError msg, effs)
  | .ok (clientName, notes) =>
    if jsFalsy clientName || jsFalsy notes then (.invalidInput, effs)
    else if jsFalsy env.openaiApiKey then (.missingApiKey, effs)
    else
      match w.openaiResult with
      | .error msg => (.caughtError msg, effs ++ [.openaiCall])
      | .ok content =>
        let proposal := content.getD ""
        match w.insertError with
        | some msg => (.saveError msg, effs ++ [.openaiCall, .insertCall])
        | none =>
          let saved : ProposalRow :=
            ⟨w.newId, uid, jsTrim (clientName.getD ""), notes.getD "", proposal, w.now⟩
          (.success proposal saved, effs ++ [.openaiCall, .insertCall])

/-- The generate route `POST` handler: token extraction, env check, auth
resolution, plan load, free-plan quota check, then `genContinue`.
Returns the response together with the trace of external calls made. -/
def runGenerate (env : GenEnv) (w : GenWorld) (req : GenRequest) :
    GenOutcome × List GenEffect :=
  let token : Option String :=
    if jsStartsWith req.authHeader "Bearer " then some (jsSlice req.authHeader 7) else none
  if jsFalsy token then (.unauthorized, [])
  else
    if jsFalsy env.supabaseUrl || jsFalsy env.supabaseAnon then (.missingSupabaseEnv, [])
    else
      match w.authUser with
      | none => (.unauthorized, [.authCall])
      | some uid =>
        match w.profileRow with
        | .error _ => (.profileLoadError, [.authCall, .profileQuery])
        | .ok profOpt =>
          let plan := profOpt.getD .free
          if plan ≠ Plan.pro then
            if w.countFails then (.usageCheckError, [.authCall, .profileQuery, .countQuery])
            else
              let count := monthCount w.store uid w.startOfMonth
              if FREE_LIMIT ≤ count then
                (.quotaExceeded FREE_LIMIT count, [.authCall, .profileQuery, .countQuery])
              else
                genContinue env w req uid [.authCall, .profileQuery, .countQuery]
          else
            genContinue env w req uid [.authCall, .profileQuery]

/-! ## Webhook endpoint (src/app/api/stripe/webhook/route.ts) -/

/-- One row of the `profiles` table, with the fields written by
`upsertProfile`.  Timestamps are modelled as the strings the code stores
(ISO strings produced by `unixToIso` / `new Date().toISOString()`). -/
structure Profile where
  user_id : String
  email : Option String
  plan : Plan
  stripe_customer_id : Option String
  stripe_subscription_id : Option String
  current_period_end : Option String
  updated_at : String
deriving DecidableEq

/-- `new Date(u * 1000).toISOString()`, abstracted as an injective
rendering of the unix timestamp. -/
def isoOfUnix (u : Nat) : String := "iso:" ++ toString u

/-- `unixToIso` from the webhook route: `null`/`undefined` and `0` (both
falsy in JavaScript) map to `null`. -/
def unixToIso : Option Nat → Option String
  | none => none
  | some u => if u = 0 then none else some (isoOfUnix u)

/-- `supabaseAdmin.from("profiles").upsert(row, { onConflict: "user_id" })`:
replace the row keyed by `user_id` when present, insert otherwise. -/
def upsertProfile : List Profile → Profile → List Profile
  | [], p => [p]
  | r :: rs, p => if r.user_id = p.user_id then p :: rs else r :: upsertProfile rs p

/-- Look a profile up by its `user_id` key. -/
def lookupUser (table : List Profile) (uid : String) : Option Profile :=
  table.find? (fun r => decide (r.user_id = uid))

/-- `profiles.select(...).eq("stripe_customer_id", cid).maybeSingle()`. -/
def findByCustomer (table : List Profile) (cid : String) : Option Profile :=
  table.find? (fun r => decide (r.stripe_customer_id = some cid))

/-- The fields of a `checkout.session.completed` event's session that the
handler reads.  `customer` and `subscription` collapse the
string-or-object-or-null shapes to the referenced identifier. -/
structure CheckoutSession where
  mode : String
  metadata_user_id : Option String
  customer : Option String
  subscription : Option String
  customer_details_email : Option String
  customer_email : Option String
deriving DecidableEq

/-- The fields of a subscription event object that the handler reads. -/
structure SubscriptionObj where
  id : Option String
  customer : String
  status : Option String
  current_period_end : Option Nat
deriving DecidableEq

/-- The parsed shape of a webhook event, one constructor per handled
`event.type` plus the ignored default. -/
inductive StripeEvent where
  | checkoutCompleted (session : CheckoutSession)
  | subscriptionUpdated (sub : SubscriptionObj)
  | subscriptionDeleted (sub : SubscriptionObj)
  | other
deriving DecidableEq

/-- The payment provider's signature over a body with a secret.  Modelled
as tagged concatenation, which keeps the HMAC's defining property used by
the code: a signature verifies against exactly the (secret, body) pair it
was computed from. -/
def mkSig (secret body : String) : String := secret ++ ":" ++ body

/-- External world of one webhook request. -/
structure WebhookWorld where
  /-- `stripe.webhooks.constructEvent` parsing of the raw body. -/
  parse : String → StripeEvent
  /-- `stripe.subscriptions.retrieve(id)` followed by the nullable read of
  `current_period_end` (unix seconds). -/
  retrievePeriodEnd : String → Option Nat
  /-- Whether the profile lookup by customer id fails (`profileErr`). -/
  profileQueryFails : Bool
  /-- Whether the profile upsert fails (`error` in `upsertProfile`). -/
  upsertFails : Bool
  /-- `new Date().toISOString()` stored in `updated_at`. -/
  now : String

/-- An inbound webhook request: the `stripe-signature` header and the raw
body text. -/
structure WebhookReq where
  sig : Option String
  rawBody : String

/-- The JSON body of a webhook response: an `{error: msg}` object or an
`{ok: true, note?}` acknowledgment. -/
inductive WebhookResp where
  | errorMsg (msg : String)
  | ok (note : Option String)
deriving DecidableEq

/-- A webhook response together with the table state after handling. -/
structure WebhookResult where
  status : Nat
  resp : WebhookResp
  table : List Profile
deriving DecidableEq

/-- Dispatch on the verified event, mirroring the three `if event.type`
blocks and the final acknowledgment of unknown events.  Store failures
surface through the handler's catch-all, which returns status 400 with
the thrown message. -/
def handleEvent (w : WebhookWorld) (table : List Profile) :
    StripeEvent → WebhookResult
  | .checkoutCompleted s =>
    if s.mode ≠ "subscription" then
      ⟨200, .ok (some "Ignored non-subscription checkout"), table⟩
    else
      match s.metadata_user_id with
      | none => ⟨200, .ok (some "Missing session.metadata.user_id"), table⟩
      | some userId =>
        let cpe : Option Nat :=
          match s.subscription with
          | some sid => w.retrievePeriodEnd sid
          | none => none
        if w.upsertFails then ⟨400, .errorMsg "Supabase upsert failed", table⟩
        else
          let p : Profile :=
            ⟨userId, s.customer_details_email.orElse (fun _ => s.customer_email),
              Plan.pro, s.customer, s.subscription, unixToIso cpe, w.now⟩
          ⟨200, .ok none, upsertProfile table p⟩
  | .subscriptionUpdated sub =>
    if w.profileQueryFails then ⟨400, .errorMsg "profile query failed", table⟩
    else
      match findByCustomer table sub.customer with
      | none => ⟨200, .ok (some "No profile for customer"), table⟩
      | some profile =>
        let plan : Plan := if sub.status = some "active" then .pro else .free
        if w.upsertFails then ⟨400, .errorMsg "Supabase upsert failed", table⟩
        else
          let p : Profile :=
            ⟨profile.user_id, profile.email, plan, some sub.customer, sub.id,
              unixToIso sub.current_period_end, w.now⟩
          ⟨200, .ok none, upsertProfile table p⟩
  | .subscriptionDeleted sub =>
    if w.profileQueryFails then ⟨400, .errorMsg "profile query failed", table⟩
    else
      match findByCustomer table sub.customer with
      | none => ⟨200, .ok (some "No profile for customer"), table⟩
      | some profile =>
        if w.upsertFails then ⟨400, .errorMsg "Supabase upsert failed", table⟩
        else
          let p : Profile :=
            ⟨profile.user_id, profile.email, Plan.free, some sub.customer, none,
              none, w.now⟩
          ⟨200, .ok none, upsertProfile table p⟩
  | .other => ⟨200, .ok none, table⟩

/-- The webhook `POST` handler: signature-header presence, secret
presence, `constructEvent` signature verification (failure → 400
"Invalid signature" before any dispatch), then `handleEvent`. -/
def runWebhook (secretEnv : Option String) (w : WebhookWorld)
    (table : List Profile) (req : WebhookReq) : WebhookResult :=
  if jsFalsy req.sig then ⟨400, .errorMsg "Missing stripe-signature", table⟩
  else if jsFalsy secretEnv then ⟨500, .errorMsg "Missing STRIPE_WEBHOOK_SECRET", table⟩
  else if req.sig.getD "" = mkSig (secretEnv.getD "") req.rawBody then
    handleEvent w table (w.parse req.rawBody)
  else ⟨400, .errorMsg "Invalid signature", table⟩

/-! ## Checkout-session-create endpoint (src/unnamed/part_000) -/

/-- Server environment read by the checkout-session-create route. -/
structure CheckoutEnv where
  stripeSecretKey : Option String
  priceId : Option String
  siteUrl : Option String

/-- The parsed `{email, userId}` body fields. -/
structure CheckoutBody where
  email : Option String
  userId : Option String

/-- The checkout-session-create response, plus whether
`stripe.checkout.sessions.create` was invoked. -/
inductive CheckoutOutcome where
  | missingSecretKey
  | missingPriceId
  | missingEmail
  | missingUserId
  | sessionUrl (url : Option String)
  | caughtError (msg : String)
deriving DecidableEq

/-- HTTP status of each checkout-session-create response site. -/
def checkoutStatus : CheckoutOutcome → Nat
  | .missingSecretKey => 500
  | .missingPriceId => 500
  | .missingEmail => 400
  | .missingUserId => 400
  | .sessionUrl _ => 200
  | .caughtError _ => 500

/-- The checkout-session-create `POST` handler.  `body` is the result of
`req.json()`; `createSession` is the provider call, returning the hosted
session's (nullable) url or a thrown error message.  The second component
records whether the provider call was made. -/
def runCheckoutCreate (env : CheckoutEnv) (body : Except String CheckoutBody)
    (createSession : Except String (Option String)) : CheckoutOutcome × Bool :=
  match body with
  | .error msg => (.caughtError msg, false)
  | .ok b =>
    if jsFalsy env.stripeSecretKey then (.missingSecretKey, false)
    else if jsFalsy env.priceId then (.missingPriceId, false)
    else if jsFalsy b.email then (.missingEmail, false)
    else if jsFalsy b.userId then (.missingUserId, false)
    else
      match createSession with
      | .error msg => (.caughtError msg, true)
      | .ok url => (.sessionUrl url, true)

/-! ## Concrete instances used to exercise the handlers -/

/-- A generate-route environment with all variables configured. -/
def genv1 : GenEnv := ⟨some "url", some "anon", some "key"⟩

/-- An authenticated generate request with a well-formed body. -/
def greq1 : GenRequest := ⟨"Bearer tok", .ok (some "Acme", some "notes text")⟩

/-- A free-plan world in which the user already owns three proposals
created inside the current month. -/
def gw1 : GenWorld :=
  ⟨some "u1", .ok (some .free),
    [⟨"p1", "u1", "a", "n", "t", 10⟩, ⟨"p2", "u1", "a", "n", "t", 11⟩,
     ⟨"p3", "u1", "a", "n", "t", 12⟩],
    10, false, .ok (some "TEXT"), none, 99, "id9"⟩

/-- A pro-plan world with an empty store and succeeding providers. -/
def gw6 : GenWorld :=
  ⟨some "u1", .ok (some .pro), [], 0, false, .ok (some "TEXT"), none, 99, "id9"⟩

/-- A request whose client name is whitespace-only (empty after trimming
but truthy in JavaScript). -/
def greq6 : GenRequest := ⟨"Bearer tok", .ok (some " ", some "valid notes text here")⟩

/-- A request whose client name is the empty string. -/
def greq6e : GenRequest := ⟨"Bearer tok", .ok (some "", some "valid notes text here")⟩

/-- A subscription-mode checkout session with all references present. -/
def sessA : CheckoutSession :=
  ⟨"subscription", some "u1", some "cus1", some "sub1", some "a@x", none⟩

/-- A webhook world whose bodies parse to the `sessA` checkout event. -/
def wCheckoutA : WebhookWorld :=
  ⟨fun _ => .checkoutCompleted sessA, fun _ => some 1700000000, false, false, "t0"⟩

/-- A correctly signed webhook request. -/
def reqA : WebhookReq := ⟨some (mkSig "whsec" "bodyA"), "bodyA"⟩

/-- A subscription-mode checkout session whose `subscription` field is null. -/
def sessB : CheckoutSession :=
  ⟨"subscription", some "u2", some "cus2", none, none, some "b@x"⟩

/-- A webhook world whose bodies parse to the `sessB` checkout event. -/
def wCheckoutB : WebhookWorld :=
  ⟨fun _ => .checkoutCompleted sessB, fun _ => none, false, false, "t0"⟩

/-- An active subscription object for customer `cus1`. -/
def subActive : SubscriptionObj := ⟨some "sub1", "cus1", some "active", some 1700000000⟩

/-- A webhook world whose bodies parse to a subscription-updated event. -/
def wUpd : WebhookWorld :=
  ⟨fun _ => .subscriptionUpdated subActive, fun _ => none, false, false, "t0"⟩

/-- As `wUpd`, but the profile lookup by customer id fails. -/
def wUpdFail : WebhookWorld :=
  ⟨fun _ => .subscriptionUpdated subActive, fun _ => none, true, false, "t0"⟩

/-- A cancelled subscription object for customer `cus1`. -/
def subDel : SubscriptionObj := ⟨some "sub1", "cus1", some "canceled", none⟩

/-- A webhook world whose bodies parse to a subscription-deleted event. -/
def wDel : WebhookWorld :=
  ⟨fun _ => .subscriptionDeleted subDel, fun _ => none, false, false, "t0"⟩

/-- A webhook world whose bodies parse to an unhandled event type. -/
def wOther : WebhookWorld := ⟨fun _ => .other, fun _ => none, false, false, "t0"⟩

/-- A pro profile for user `u1` bound to customer `cus1`. -/
def prof1 : Profile :=
  ⟨"u1", some "a@x", .pro, some "cus1", some "sub1", some (isoOfUnix 1700000000), "t-1"⟩

/-- A one-row profiles table holding `prof1`. -/
def table1 : List Profile := [prof1]

/-- A checkout-session-create environment with all variables configured. -/
def cenv9 : CheckoutEnv := ⟨some "sk", some "price", some "site"⟩

/-- A checkout-session-create body missing the email field. -/
def cbody9 : CheckoutBody := ⟨none, some "u1"⟩

/-! ## Helper lemmas -/

/-- With a fixed secret, the modelled signature determines the signed
body: a signature computed over one body never verifies another. -/
theorem mkSig_inj_body (secret b1 b2 : String) (h : mkSig secret b1 = mkSig secret b2) :
    b1 = b2 := by
  have h2 := congrArg String.data h
  simp only [mkSig, String.data_append, List.append_assoc] at h2
  exact String.ext (List.append_cancel_left (List.append_cancel_left h2))

/-- Upserting the same row twice equals upserting it once. -/
theorem upsertProfile_idem (t : List Profile) (p : Profile) :
    upsertProfile (upsertProfile t p) p = upsertProfile t p := by
  induction t with
  | nil => simp [upsertProfile]
  | cons r rs ih =>
    by_cases h : r.user_id = p.user_id
    · simp [upsertProfile, h]
    · simp [upsertProfile, h, ih]

/-- After an upsert, looking up the upserted row's key returns it. -/
theorem lookupUser_upsert (t : List Profile) (p : Profile) :
    lookupUser (upsertProfile t p) p.user_id = some p := by
  induction t with
  | nil => simp [upsertProfile, lookupUser]
  | cons r rs ih =>
    by_cases h : r.user_id = p.user_id
    · simp [upsertProfile, lookupUser, h]
    · simp [upsertProfile, lookupUser, List.find?, h] at ih ⊢
      exact ih

/-- Upserting a row that keeps the key of the first customer match and
carries that customer id makes it the first customer match afterwards.
Requires the table's `user_id` keys to be distinct (the store's unique
key constraint). -/
theorem findByCustomer_upsert (t : List Profile) (cid : String) (prof p : Profile)
    (hnd : (t.map Profile.user_id).Nodup)
    (hf : findByCustomer t cid = some prof)
    (hu : p.user_id = prof.user_id)
    (hc : p.stripe_customer_id = some cid) :
    findByCustomer (upsertProfile t p) cid = some p := by
  induction t with
  | nil => simp [findByCustomer] at hf
  | cons r rs ih =>
    by_cases h1 : r.stripe_customer_id = some cid
    · have hpr : prof = r := by
        simp [findByCustomer, List.find?, h1] at hf
        exact hf.symm
      have huid : r.user_id = p.user_id := by rw [hu, hpr]
      simp [upsertProfile, huid, findByCustomer, List.find?, hc]
    · have hf2 : findByCustomer rs cid = some prof := by
        simpa [findByCustomer, List.find?, h1] using hf
      have hmem : prof ∈ rs := List.mem_of_find?_eq_some hf2
      have hnd2 : r.user_id ∉ rs.map Profile.user_id ∧ (rs.map Profile.user_id).Nodup :=
        List.nodup_cons.mp (by simpa using hnd)
      have hne : r.user_id ≠ p.user_id := by
        rw [hu]
        intro hcontra
        exact hnd2.1 (hcontra ▸ List.mem_map_of_mem Profile.user_id hmem)
      simp only [upsertProfile, if_neg hne]
      simp [findByCustomer, List.find?, h1] at ih ⊢
      exact ih hnd2.2 hf2

/-- A modelled signature is never the empty string. -/
theorem mkSig_ne_empty (secret body : String) : mkSig secret body ≠ "" := by
  intro h
  have h2 := congrArg String.data h
  simp [mkSig, String.data_append] at h2

/-- Exhaustive description of the continuation steps 4–6 of the generate
route: they never produce a quota or auth outcome, and they extend the
call trace by nothing, by the provider call, or by the provider call and
the insert. -/
theorem genContinue_spec (env : GenEnv) (w : GenWorld) (req : GenRequest)
    (uid : String) (effs : List GenEffect) :
    (∀ l u, (genContinue env w req uid effs).1 ≠ GenOutcome.quotaExceeded l u) ∧
    (genContinue env w req uid effs).1 ≠ GenOutcome.unauthorized ∧
    ((genContinue env w req uid effs).2 = effs ∨
     (genContinue env w req uid effs).2 = effs ++ [GenEffect.openaiCall] ∨
     (genContinue env w req uid effs).2 = effs ++ [GenEffect.openaiCall, GenEffect.insertCall]) := by
  rcases hb : req.body with msg | ⟨cn, nts⟩ <;> simp only [genContinue, hb]
  · simp
  · by_cases hv : (jsFalsy cn || jsFalsy nts) = true
    · simp [hv]
    · simp only [hv, if_false, Bool.false_eq_true]
      by_cases hk : jsFalsy env.openaiApiKey = true
      · simp [hk]
      · simp only [hk, if_false, Bool.false_eq_true]
        rcases w.openaiResult with msg | content
        · simp
        · rcases w.insertError with _ | msg <;> simp

/-- A request carrying the signature of its own body over the configured
secret passes verification and is dispatched to the event handler. -/
theorem runWebhook_verified (secret : String) (hsec : secret ≠ "") (w : WebhookWorld)
    (table : List Profile) (req : WebhookReq)
    (hsig : req.sig = some (mkSig secret req.rawBody)) :
    runWebhook (some secret) w table req = handleEvent w table (w.parse req.rawBody) := by
  simp [runWebhook, hsig, jsFalsy, mkSig_ne_empty, hsec]

/-! ## Claim theorems -/

/-- Claim C3: a webhook request whose (present, non-empty) signature does
not verify against the shared webhook secret is answered with 400 and the
body `{error: "Invalid signature"}`, and the profiles table is untouched;
moreover a signature computed over any other body than the delivered one
never verifies, so a tampered body signed over the original payload is
rejected this way. -/
theorem signature_gate_atomic (secret : String) (w : WebhookWorld)
    (table : List Profile) (req : WebhookReq) (sig : String)
    (hsig : req.sig = some sig) (hsigne : sig ≠ "") (hsecne : secret ≠ "")
    (hbad : sig ≠ mkSig secret req.rawBody) :
    (runWebhook (some secret) w table req).status = 400 ∧
    (runWebhook (some secret) w table req).resp = .errorMsg "Invalid signature" ∧
    (runWebhook (some secret) w table req).table = table ∧
    ∀ original, original ≠ req.rawBody →
      mkSig secret original ≠ mkSig secret req.rawBody := by
  have hrun : runWebhook (some secret) w table req =
      ⟨400, .errorMsg "Invalid signature", table⟩ := by
    simp [runWebhook, hsig, jsFalsy, hsigne, hsecne, hbad]
  refine ⟨by rw [hrun], by rw [hrun], by rw [hrun], ?_⟩
  intro original hne heq
  exact hne (mkSig_inj_body secret original req.rawBody heq)

/-- Witness for C3: a concrete mis-signed request is rejected with 400,
"Invalid signature", and an unchanged table. -/
theorem signature_gate_atomic_witness :
    (runWebhook (some "whsec") wOther table1 ⟨some "bogus", "body"⟩).status = 400 ∧
    (runWebhook (some "whsec") wOther table1 ⟨some "bogus", "body"⟩).resp =
      .errorMsg "Invalid signature" ∧
    (runWebhook (some "whsec") wOther table1 ⟨some "bogus", "body"⟩).table = table1 := by
  have h := signature_gate_atomic "whsec" wOther table1 ⟨some "bogus", "body"⟩ "bogus"
    rfl (by decide) (by decide) (by decide)
  exact ⟨h.1, h.2.1, h.2.2.1⟩

/-- On a verified subscription-mode checkout-completed event carrying a
user id, the handler acknowledges with 200 and upserts one fixed target
profile (plan pro) keyed by that user id. -/
theorem runWebhook_checkout (secret : String) (w : WebhookWorld)
    (req : WebhookReq) (s : CheckoutSession) (uid : String)
    (hsecne : secret ≠ "")
    (hsig : req.sig = some (mkSig secret req.rawBody))
    (hparse : w.parse req.rawBody = .checkoutCompleted s)
    (hmode : s.mode = "subscription")
    (huid : s.metadata_user_id = some uid)
    (hup : w.upsertFails = false) :
    ∃ p : Profile, p.user_id = uid ∧ p.plan = Plan.pro ∧
      p.stripe_customer_id = s.customer ∧ p.stripe_subscription_id = s.subscription ∧
      (s.subscription = none → p.current_period_end = none) ∧
      ∀ t, runWebhook (some secret) w t req = ⟨200, .ok none, upsertProfile t p⟩ := by
  refine ⟨⟨uid, s.customer_details_email.orElse (fun _ => s.customer_email), Plan.pro,
    s.customer, s.subscription,
    unixToIso (match s.subscription with
      | some sid => w.retrievePeriodEnd sid
      | none => none), w.now⟩, rfl, rfl, rfl, rfl, ?_, ?_⟩
  · intro hnone
    simp [hnone, unixToIso]
  · intro t
    rw [runWebhook_verified secret hsecne w t req hsig, hparse]
    simp [handleEvent, hmode, huid, hup]

/-- Claim C2: applying a verified subscription-mode checkout-completed
event carrying a user id twice, with an identical payload, leaves the
profiles table exactly as applying it once, and the stored Profile for
that user — plan pro with its customer and subscription references — is
the same after one and after two applications. -/
theorem checkout_completed_idempotent (secret : String) (w : WebhookWorld)
    (table : List Profile) (req : WebhookReq) (s : CheckoutSession) (uid : String)
    (hsecne : secret ≠ "")
    (hsig : req.sig = some (mkSig secret req.rawBody))
    (hparse : w.parse req.rawBody = .checkoutCompleted s)
    (hmode : s.mode = "subscription")
    (huid : s.metadata_user_id = some uid)
    (hup : w.upsertFails = false) :
    (runWebhook (some secret) w (runWebhook (some secret) w table req).table req).table =
      (runWebhook (some secret) w table req).table ∧
    ∃ p, p.plan = Plan.pro ∧
      lookupUser (runWebhook (some secret) w table req).table uid = some p ∧
      lookupUser (runWebhook (some secret) w
        (runWebhook (some secret) w table req).table req).table uid = some p := by
  obtain ⟨p, hpu, hpp, _, _, _, hr⟩ :=
    runWebhook_checkout secret w req s uid hsecne hsig hparse hmode huid hup
  have htab : (runWebhook (some secret) w table req).table = upsertProfile table p := by
    rw [hr table]
  have htab2 : (runWebhook (some secret) w
      (runWebhook (some secret) w table req).table req).table =
      upsertProfile table p := by
    rw [htab, hr (upsertProfile table p)]
    exact upsertProfile_idem table p
  refine ⟨by rw [htab2, htab], p, hpp, ?_, ?_⟩
  · rw [htab, ← hpu]
    exact lookupUser_upsert table p
  · rw [htab2, ← hpu]
    exact lookupUser_upsert table p

/-- Witness for C2: a concrete checkout-completed event applied twice to
an empty table leaves the table of the single application, with the pro
profile stored for the user. -/
theorem checkout_completed_idempotent_witness :
    (runWebhook (some "whsec") wCheckoutA
        (runWebhook (some "whsec") wCheckoutA [] reqA).table reqA).table =
      (runWebhook (some "whsec") wCheckoutA [] reqA).table ∧
    ∃ p, p.plan = Plan.pro ∧
      lookupUser (runWebhook (some "whsec") wCheckoutA [] reqA).table "u1" = some p ∧
      lookupUser (runWebhook (some "whsec") wCheckoutA
        (runWebhook (some "whsec") wCheckoutA [] reqA).table reqA).table "u1" = some p :=
  checkout_completed_idempotent "whsec" wCheckoutA [] reqA sessA "u1"
    (by decide) rfl rfl rfl rfl rfl

/-- Claim C10: a verified subscription-mode checkout-completed event that
carries a user id but whose session has a null `subscription` field still
upserts the Profile with plan pro, a null subscription reference and a
null period-end, and is acknowledged with 200. -/
theorem checkout_completed_without_subscription (secret : String) (w : WebhookWorld)
    (table : List Profile) (req : WebhookReq) (s : CheckoutSession) (uid : String)
    (hsecne : secret ≠ "")
    (hsig : req.sig = some (mkSig secret req.rawBody))
    (hparse : w.parse req.rawBody = .checkoutCompleted s)
    (hmode : s.mode = "subscription")
    (huid : s.metadata_user_id = some uid)
    (hup : w.upsertFails = false)
    (hsub : s.subscription = none) :
    (runWebhook (some secret) w table req).status = 200 ∧
    ∃ p, lookupUser (runWebhook (some secret) w table req).table uid = some p ∧
      p.plan = Plan.pro ∧ p.stripe_subscription_id = none ∧
      p.current_period_end = none := by
  obtain ⟨p, hpu, hpp, _, hpsub, hpcpe, hr⟩ :=
    runWebhook_checkout secret w req s uid hsecne hsig hparse hmode huid hup
  refine ⟨by rw [hr table], p, ?_, hpp, by rw [hpsub, hsub], hpcpe hsub⟩
  rw [hr table, ← hpu]
  exact lookupUser_upsert table p

/-- Witness for C10: a concrete checkout-completed session without a
subscription reference yields a pro profile with null subscription
reference and null period-end. -/
theorem checkout_completed_without_subscription_witness :
    (runWebhook (some "whsec") wCheckoutB table1 reqA).status = 200 ∧
    ∃ p, lookupUser (runWebhook (some "whsec") wCheckoutB table1 reqA).table "u2" = some p ∧
      p.plan = Plan.pro ∧ p.stripe_subscription_id = none ∧
      p.current_period_end = none :=
  checkout_completed_without_subscription "whsec" wCheckoutB table1 reqA sessB "u2"
    (by decide) rfl rfl rfl rfl rfl rfl

/-- Claim C4: a verified subscription-deleted event whose customer
reference matches an existing Profile downgrades that Profile to plan
free, clears its subscription reference and period-end, and retains the
customer reference; applying the event twice leaves the table of the
single application, with plan free and a null subscription reference both
times.  The table's user ids are assumed distinct (the store's unique-key
constraint on `user_id`). -/
theorem subscription_deleted_transition (secret : String) (w : WebhookWorld)
    (table : List Profile) (req : WebhookReq) (sub : SubscriptionObj) (prof : Profile)
    (hnd : (table.map Profile.user_id).Nodup)
    (hsecne : secret ≠ "")
    (hsig : req.sig = some (mkSig secret req.rawBody))
    (hparse : w.parse req.rawBody = .subscriptionDeleted sub)
    (hpq : w.profileQueryFails = false)
    (hup : w.upsertFails = false)
    (hfind : findByCustomer table sub.customer = some prof) :
    (∃ p, lookupUser (runWebhook (some secret) w table req).table prof.user_id = some p ∧
       p.plan = Plan.free ∧ p.stripe_subscription_id = none ∧
       p.current_period_end = none ∧ p.stripe_customer_id = some sub.customer) ∧
    (runWebhook (some secret) w (runWebhook (some secret) w table req).table req).table =
      (runWebhook (some secret) w table req).table ∧
    ∃ q, lookupUser (runWebhook (some secret) w
        (runWebhook (some secret) w table req).table req).table prof.user_id = some q ∧
      q.plan = Plan.free ∧ q.stripe_subscription_id = none := by
  have h1 : runWebhook (some secret) w table req = ⟨200, .ok none,
      upsertProfile table
        ⟨prof.user_id, prof.email, Plan.free, some sub.customer, none, none, w.now⟩⟩ := by
    rw [runWebhook_verified secret hsecne w table req hsig, hparse]
    simp [handleEvent, hpq, hfind, hup]
  have hfind2 : findByCustomer (upsertProfile table
      ⟨prof.user_id, prof.email, Plan.free, some sub.customer, none, none, w.now⟩)
      sub.customer = some
        ⟨prof.user_id, prof.email, Plan.free, some sub.customer, none, none, w.now⟩ :=
    findByCustomer_upsert table sub.customer prof _ hnd hfind rfl rfl
  have h2 : runWebhook (some secret) w (upsertProfile table
      ⟨prof.user_id, prof.email, Plan.free, some sub.customer, none, none, w.now⟩) req =
      ⟨200, .ok none, upsertProfile table
        ⟨prof.user_id, prof.email, Plan.free, some sub.customer, none, none, w.now⟩⟩ := by
    rw [runWebhook_verified secret hsecne w _ req hsig, hparse]
    simp [handleEvent, hpq, hfind2, hup]
    exact upsertProfile_idem table _
  refine ⟨⟨_, by rw [h1]; exact lookupUser_upsert table _, rfl, rfl, rfl, rfl⟩, ?_, ?_⟩
  · rw [h1]
    exact congrArg WebhookResult.table h2
  · refine ⟨⟨prof.user_id, prof.email, Plan.free, some sub.customer, none, none, w.now⟩,
      ?_, rfl, rfl⟩
    rw [h1]
    have h3 := congrArg WebhookResult.table h2
    simp only at h3
    rw [h3]
    exact lookupUser_upsert table _

/-- Witness for C4: deleting the subscription of the concrete pro profile
`prof1` yields a free profile with cleared subscription reference, and a
second delivery leaves the table unchanged. -/
theorem subscription_deleted_transition_witness :
    (∃ p, lookupUser (runWebhook (some "whsec") wDel table1 reqA).table prof1.user_id = some p ∧
       p.plan = Plan.free ∧ p.stripe_subscription_id = none ∧
       p.current_period_end = none ∧ p.stripe_customer_id = some subDel.customer) ∧
    (runWebhook (some "whsec") wDel (runWebhook (some "whsec") wDel table1 reqA).table reqA).table =
      (runWebhook (some "whsec") wDel table1 reqA).table ∧
    ∃ q, lookupUser (runWebhook (some "whsec") wDel
        (runWebhook (some "whsec") wDel table1 reqA).table reqA).table prof1.user_id = some q ∧
      q.plan = Plan.free ∧ q.stripe_subscription_id = none :=
  subscription_deleted_transition "whsec" wDel table1 reqA subDel prof1
    (by decide) (by decide) rfl rfl rfl rfl (by decide)

/-- Claim C5: a verified subscription-updated event whose customer
reference matches an existing Profile sets the plan to pro exactly when
the subscription status is "active" and to free otherwise, refreshing the
subscription reference and period-end from the event; with no matching
Profile the event is acknowledged with 200 and no state change. -/
theorem subscription_updated_transition (secret : String) (w : WebhookWorld)
    (table : List Profile) (req : WebhookReq) (sub : SubscriptionObj)
    (hsecne : secret ≠ "")
    (hsig : req.sig = some (mkSig secret req.rawBody))
    (hparse : w.parse req.rawBody = .subscriptionUpdated sub)
    (hpq : w.profileQueryFails = false)
    (hup : w.upsertFails = false) :
    (∀ prof, findByCustomer table sub.customer = some prof →
       (runWebhook (some secret) w table req).status = 200 ∧
       ∃ p, lookupUser (runWebhook (some secret) w table req).table prof.user_id = some p ∧
         p.plan = (if sub.status = some "active" then Plan.pro else Plan.free) ∧
         p.stripe_subscription_id = sub.id ∧
         p.current_period_end = unixToIso sub.current_period_end) ∧
    (findByCustomer table sub.customer = none →
       (runWebhook (some secret) w table req).status = 200 ∧
       (runWebhook (some secret) w table req).table = table) := by
  constructor
  · intro prof hfind
    have h1 : runWebhook (some secret) w table req = ⟨200, .ok none,
        upsertProfile table ⟨prof.user_id, prof.email,
          if sub.status = some "active" then Plan.pro else Plan.free,
          some sub.customer, sub.id, unixToIso sub.current_period_end, w.now⟩⟩ := by
      rw [runWebhook_verified secret hsecne w table req hsig, hparse]
      simp [handleEvent, hpq, hfind, hup]
    exact ⟨by rw [h1], _, by rw [h1]; exact lookupUser_upsert table _, rfl, rfl, rfl⟩
  · intro hfind
    have h1 : runWebhook (some secret) w table req =
        ⟨200, .ok (some "No profile for customer"), table⟩ := by
      rw [runWebhook_verified secret hsecne w table req hsig, hparse]
      simp [handleEvent, hpq, hfind]
    exact ⟨by rw [h1], by rw [h1]⟩

/-- Witness for C5: an active subscription-updated event for the concrete
profile `prof1` stores plan pro with the event's subscription reference
and period-end. -/
theorem subscription_updated_transition_witness :
    (runWebhook (some "whsec") wUpd table1 reqA).status = 200 ∧
    ∃ p, lookupUser (runWebhook (some "whsec") wUpd table1 reqA).table prof1.user_id = some p ∧
      p.plan = (if subActive.status = some "active" then Plan.pro else Plan.free) ∧
      p.stripe_subscription_id = subActive.id ∧
      p.current_period_end = unixToIso subActive.current_period_end :=
  (subscription_updated_transition "whsec" wUpd table1 reqA subActive
    (by decide) rfl rfl rfl rfl).1 prof1 (by decide)

/-- Counterexample for C8: a webhook request whose signature verifies
(the header is exactly the body's signature under the configured secret)
is nevertheless answered with 400 when the profile lookup fails in the
store, so a verified request does not always receive a 200
acknowledgment. -/
theorem webhook_verified_but_400 :
    (⟨some (mkSig "whsec" "evt"), "evt"⟩ : WebhookReq).sig =
      some (mkSig "whsec" (⟨some (mkSig "whsec" "evt"), "evt"⟩ : WebhookReq).rawBody) ∧
    (runWebhook (some "whsec") wUpdFail table1
      ⟨some (mkSig "whsec" "evt"), "evt"⟩).status = 400 :=
  ⟨rfl, rfl⟩

/-- Claim C8 (amended): with a present non-empty signature header and a
configured secret, every verified webhook request whose store operations
succeed is acknowledged with 200 — including all non-actionable events —
while a request whose signature does not verify receives 400 with no
table change; a store failure during processing of a verified event also
maps to 400. -/
theorem webhook_ack_discipline (secret : String) (w : WebhookWorld)
    (table : List Profile) (req : WebhookReq) (sig : String)
    (hsig : req.sig = some sig) (hsigne : sig ≠ "") (hsecne : secret ≠ "")
    (hpq : w.profileQueryFails = false)
    (hup : w.upsertFails = false) :
    (sig = mkSig secret req.rawBody →
       (runWebhook (some secret) w table req).status = 200) ∧
    (sig ≠ mkSig secret req.rawBody →
       (runWebhook (some secret) w table req).status = 400 ∧
       (runWebhook (some secret) w table req).table = table) := by
  constructor
  · intro hver
    subst hver
    rw [runWebhook_verified secret hsecne w table req hsig]
    cases hev : w.parse req.rawBody with
    | checkoutCompleted s =>
      by_cases hmode : s.mode = "subscription"
      · cases huid : s.metadata_user_id with
        | none => simp [handleEvent, hmode, huid]
        | some uid => simp [handleEvent, hmode, huid, hup]
      · simp [handleEvent, hmode]
    | subscriptionUpdated sub =>
      cases hfind : findByCustomer table sub.customer with
      | none => simp [handleEvent, hpq, hfind]
      | some prof => simp [handleEvent, hpq, hfind, hup]
    | subscriptionDeleted sub =>
      cases hfind : findByCustomer table sub.customer with
      | none => simp [handleEvent, hpq, hfind]
      | some prof => simp [handleEvent, hpq, hfind, hup]
    | other => simp [handleEvent]
  · intro hbad
    have hrun : runWebhook (some secret) w table req =
        ⟨400, .errorMsg "Invalid signature", table⟩ := by
      simp [runWebhook, hsig, jsFalsy, hsigne, hsecne, hbad]
    exact ⟨by rw [hrun], by rw [hrun]⟩

/-- Witness for C8 (amended): a verified request carrying an unhandled
event type is acknowledged with 200. -/
theorem webhook_ack_discipline_witness :
    (runWebhook (some "whsec") wOther table1 reqA).status = 200 :=
  (webhook_ack_discipline "whsec" wOther table1 reqA (mkSig "whsec" "bodyA")
    rfl (by decide) (by decide) rfl rfl).1 rfl

/-- Claim C1: for an authenticated generate request (token present, env
configured, identity resolved, plan row loaded), a pro plan never yields
a quota rejection, and a free plan is rejected exactly when the user's
count of proposals created since the start of the current month has
reached the fixed limit 3 — in which case the response is the 402
QuotaExceeded outcome with code FREE_LIMIT_REACHED carrying limit 3 and
used equal to that count. -/
theorem quota_ledger_decision (env : GenEnv) (w : GenWorld) (req : GenRequest)
    (uid : String) (profOpt : Option Plan)
    (henv : (jsFalsy env.supabaseUrl || jsFalsy env.supabaseAnon) = false)
    (htok : jsFalsy (if jsStartsWith req.authHeader "Bearer " then
      some (jsSlice req.authHeader 7) else none) = false)
    (hauth : w.authUser = some uid)
    (hprof : w.profileRow = .ok profOpt) :
    (profOpt.getD Plan.free = Plan.pro →
       ∀ l u, (runGenerate env w req).1 ≠ GenOutcome.quotaExceeded l u) ∧
    (profOpt.getD Plan.free = Plan.free → w.countFails = false →
       ((monthCount w.store uid w.startOfMonth < FREE_LIMIT →
          ∀ l u, (runGenerate env w req).1 ≠ GenOutcome.quotaExceeded l u) ∧
        (FREE_LIMIT ≤ monthCount w.store uid w.startOfMonth →
          (runGenerate env w req).1 =
            GenOutcome.quotaExceeded FREE_LIMIT (monthCount w.store uid w.startOfMonth) ∧
          genStatus (runGenerate env w req).1 = 402 ∧
          genCode (runGenerate env w req).1 = some "FREE_LIMIT_REACHED"))) := by
  have hstep : runGenerate env w req =
      (if profOpt.getD Plan.free ≠ Plan.pro then
        if w.countFails then
          (.usageCheckError, [GenEffect.authCall, .profileQuery, .countQuery])
        else if FREE_LIMIT ≤ monthCount w.store uid w.startOfMonth then
          (.quotaExceeded FREE_LIMIT (monthCount w.store uid w.startOfMonth),
            [GenEffect.authCall, .profileQuery, .countQuery])
        else genContinue env w req uid [GenEffect.authCall, .profileQuery, .countQuery]
      else genContinue env w req uid [GenEffect.authCall, .profileQuery]) := by
    simp [runGenerate, htok, henv, hauth, hprof]
  constructor
  · intro hpro l u
    rw [hstep, if_neg (by simp [hpro])]
    exact (genContinue_spec env w req uid _).1 l u
  · intro hfree hcf
    have hne : profOpt.getD Plan.free ≠ Plan.pro := by rw [hfree]; decide
    constructor
    · intro hlt l u
      rw [hstep, if_pos hne, if_neg (by simp [hcf]), if_neg (Nat.not_le.mpr hlt)]
      exact (genContinue_spec env w req uid _).1 l u
    · intro hge
      rw [hstep, if_pos hne, if_neg (by simp [hcf]), if_pos hge]
      exact ⟨rfl, rfl, rfl⟩

/-- Witness for C1: a free-plan user with three proposals already created
inside the current month is rejected with QuotaExceeded limit 3, used 3,
status 402 and code FREE_LIMIT_REACHED. -/
theorem quota_ledger_decision_witness :
    (runGenerate genv1 gw1 greq1).1 = GenOutcome.quotaExceeded 3 3 ∧
    genStatus (runGenerate genv1 gw1 greq1).1 = 402 ∧
    genCode (runGenerate genv1 gw1 greq1).1 = some "FREE_LIMIT_REACHED" := by
  have h := ((quota_ledger_decision genv1 gw1 greq1 "u1" (some Plan.free)
    (by decide) (by decide) rfl rfl).2 rfl rfl).2 (by decide)
  refine ⟨?_, h.2.1, h.2.2⟩
  rw [h.1]
  decide

/-- Counterexample for C6: a generate request whose client name is a
single space — empty after trimming — is not rejected as invalid input:
it succeeds with status 200, and both the text provider and the insert
are invoked, because the handler tests JavaScript truthiness of the raw
fields without trimming. -/
theorem validation_whitespace_counterexample :
    jsTrim " " = "" ∧
    (runGenerate genv1 gw6 greq6).1 ≠ GenOutcome.invalidInput ∧
    genStatus (runGenerate genv1 gw6 greq6).1 = 200 ∧
    GenEffect.openaiCall ∈ (runGenerate genv1 gw6 greq6).2 ∧
    GenEffect.insertCall ∈ (runGenerate genv1 gw6 greq6).2 := by
  decide

/-- Claim C6 (amended): for a generate request that reaches validation
(authenticated, env configured, plan loaded, quota permitting, body
parsed), a client name or notes field that is absent or the empty string
yields the 400 InvalidInput response, with no text-provider call and no
insert; whitespace-only values, however, pass the truthiness check
untrimmed. -/
theorem validation_rejects_missing_or_empty (env : GenEnv) (w : GenWorld)
    (req : GenRequest) (uid : String) (profOpt : Option Plan) (cn nts : Option String)
    (henv : (jsFalsy env.supabaseUrl || jsFalsy env.supabaseAnon) = false)
    (htok : jsFalsy (if jsStartsWith req.authHeader "Bearer " then
      some (jsSlice req.authHeader 7) else none) = false)
    (hauth : w.authUser = some uid)
    (hprof : w.profileRow = .ok profOpt)
    (hquota : profOpt.getD Plan.free = Plan.pro ∨
      (w.countFails = false ∧ monthCount w.store uid w.startOfMonth < FREE_LIMIT))
    (hbody : req.body = .ok (cn, nts))
    (hempty : (jsFalsy cn || jsFalsy nts) = true) :
    (runGenerate env w req).1 = GenOutcome.invalidInput ∧
    genStatus (runGenerate env w req).1 = 400 ∧
    GenEffect.openaiCall ∉ (runGenerate env w req).2 ∧
    GenEffect.insertCall ∉ (runGenerate env w req).2 := by
  have hgc : ∀ effs, genContinue env w req uid effs = (.invalidInput, effs) := by
    intro effs
    simp [genContinue, hbody, hempty]
  have hrun :
      runGenerate env w req = (.invalidInput, [GenEffect.authCall, .profileQuery]) ∨
      runGenerate env w req =
        (.invalidInput, [GenEffect.authCall, .profileQuery, .countQuery]) := by
    by_cases hpro : profOpt.getD Plan.free = Plan.pro
    · left
      simp [runGenerate, htok, henv, hauth, hprof, hpro, hgc]
    · rcases hquota with hpro2 | ⟨hcf, hlt⟩
      · exact absurd hpro2 hpro
      · right
        have hnle := Nat.not_le.mpr hlt
        simp [runGenerate, htok, henv, hauth, hprof, hpro, hcf, hnle, hgc]
  rcases hrun with h | h <;> rw [h] <;> exact ⟨rfl, rfl, by decide, by decide⟩

/-- Witness for C6 (amended): an empty-string client name is rejected as
InvalidInput with status 400 and neither provider call nor insert. -/
theorem validation_rejects_missing_or_empty_witness :
    (runGenerate genv1 gw6 greq6e).1 = GenOutcome.invalidInput ∧
    genStatus (runGenerate genv1 gw6 greq6e).1 = 400 ∧
    GenEffect.openaiCall ∉ (runGenerate genv1 gw6 greq6e).2 ∧
    GenEffect.insertCall ∉ (runGenerate genv1 gw6 greq6e).2 :=
  validation_rejects_missing_or_empty genv1 gw6 greq6e "u1" (some Plan.pro)
    (some "") (some "valid notes text here")
    (by decide) (by decide) rfl rfl (Or.inl rfl) rfl (by decide)

/-- Claim C7: the generate route's call trace is always an ordered
subsequence of auth, profile load, count query, provider call, insert; an
unauthenticated outcome leaves a trace without any quota count query
(empty or the auth call alone); a quota rejection never contains the
provider call; and both the count query and the provider call imply that
the auth call happened and identity resolution succeeded. -/
theorem orchestrator_ordering (env : GenEnv) (w : GenWorld) (req : GenRequest) :
    List.Sublist (runGenerate env w req).2
      [GenEffect.authCall, GenEffect.profileQuery, GenEffect.countQuery,
       GenEffect.openaiCall, GenEffect.insertCall] ∧
    ((runGenerate env w req).1 = GenOutcome.unauthorized →
       (runGenerate env w req).2 = [] ∨ (runGenerate env w req).2 = [GenEffect.authCall]) ∧
    (∀ l u, (runGenerate env w req).1 = GenOutcome.quotaExceeded l u →
       GenEffect.openaiCall ∉ (runGenerate env w req).2) ∧
    (GenEffect.countQuery ∈ (runGenerate env w req).2 →
       GenEffect.authCall ∈ (runGenerate env w req).2 ∧ ∃ uid, w.authUser = some uid) ∧
    (GenEffect.openaiCall ∈ (runGenerate env w req).2 →
       GenEffect.authCall ∈ (runGenerate env w req).2 ∧ ∃ uid, w.authUser = some uid) := by
  by_cases htok : jsFalsy (if jsStartsWith req.authHeader "Bearer " then
      some (jsSlice req.authHeader 7) else none) = true
  · have h : runGenerate env w req = (.unauthorized, []) := by
      simp [runGenerate, htok]
    rw [h]
    exact ⟨by decide, fun _ => Or.inl rfl, fun l u hq => by simp at hq, by simp, by simp⟩
  · rw [Bool.not_eq_true] at htok
    by_cases henv : (jsFalsy env.supabaseUrl || jsFalsy env.supabaseAnon) = true
    · have h : runGenerate env w req = (.missingSupabaseEnv, []) := by
        simp [runGenerate, htok, henv]
      rw [h]
      exact ⟨by decide, fun hq => by simp at hq, fun l u hq => by simp at hq,
        by simp, by simp⟩
    · rw [Bool.not_eq_true] at henv
      cases hauth : w.authUser with
      | none =>
        have h : runGenerate env w req = (.unauthorized, [GenEffect.authCall]) := by
          simp [runGenerate, htok, henv, hauth]
        rw [h]
        exact ⟨by decide, fun _ => Or.inr rfl, fun l u hq => by simp at hq,
          by simp, by simp⟩
      | some uid =>
        cases hprof : w.profileRow with
        | error e =>
          have h : runGenerate env w req =
              (.profileLoadError, [GenEffect.authCall, .profileQuery]) := by
            simp [runGenerate, htok, henv, hauth, hprof]
          rw [h]
          exact ⟨by decide, fun hq => by simp at hq, fun l u hq => by simp at hq,
            by simp, by simp⟩
        | ok profOpt =>
          by_cases hpro : profOpt.getD Plan.free = Plan.pro
          · have h : runGenerate env w req =
                genContinue env w req uid [GenEffect.authCall, .profileQuery] := by
              simp [runGenerate, htok, henv, hauth, hprof, hpro]
            obtain ⟨hq, hu, htr⟩ := genContinue_spec env w req uid
              [GenEffect.authCall, .profileQuery]
            rw [h]
            refine ⟨?_, fun hcon => absurd hcon hu,
              fun l u hcon => absurd hcon (hq l u), ?_, ?_⟩ <;>
              rcases htr with h2 | h2 | h2 <;> rw [h2] <;> simp [hauth]
          · by_cases hcf : w.countFails = true
            · have h : runGenerate env w req =
                  (.usageCheckError, [GenEffect.authCall, .profileQuery, .countQuery]) := by
                simp [runGenerate, htok, henv, hauth, hprof, hpro, hcf]
              rw [h]
              exact ⟨by decide, fun hq => by simp at hq, fun l u hq => by simp at hq,
                fun _ => ⟨by decide, uid, rfl⟩, by simp⟩
            · rw [Bool.not_eq_true] at hcf
              by_cases hge : FREE_LIMIT ≤ monthCount w.store uid w.startOfMonth
              · have h : runGenerate env w req =
                    (.quotaExceeded FREE_LIMIT (monthCount w.store uid w.startOfMonth),
                      [GenEffect.authCall, .profileQuery, .countQuery]) := by
                  simp [runGenerate, htok, henv, hauth, hprof, hpro, hcf, hge]
                rw [h]
                dsimp only
                exact ⟨by decide, fun hq => by simp at hq, fun l u _ => by decide,
                  fun _ => ⟨by decide, uid, rfl⟩, by simp⟩
              · have h : runGenerate env w req = genContinue env w req uid
                    [GenEffect.authCall, .profileQuery, .countQuery] := by
                  simp [runGenerate, htok, henv, hauth, hprof, hpro, hcf, hge]
                obtain ⟨hq, hu, htr⟩ := genContinue_spec env w req uid
                  [GenEffect.authCall, .profileQuery, .countQuery]
                rw [h]
                refine ⟨?_, fun hcon => absurd hcon hu,
                  fun l u hcon => absurd hcon (hq l u), ?_, ?_⟩ <;>
                  rcases htr with h2 | h2 | h2 <;> rw [h2] <;> simp [hauth]

/-- Witness for C7: on the concrete quota-rejected request, the provider
call is absent from the trace. -/
theorem orchestrator_ordering_witness :
    GenEffect.openaiCall ∉ (runGenerate genv1 gw1 greq1).2 :=
  (orchestrator_ordering genv1 gw1 greq1).2.2.1 3 3 (by decide)

/-- Claim C9: with the payment secret and price id configured, a
checkout-session-create request whose body parses but lacks a non-empty
email, or a non-empty userId, is answered 400 (missing-email,
respectively missing-userId) and the hosted-session creation call is not
made. -/
theorem checkout_create_input_guard (env : CheckoutEnv) (b : CheckoutBody)
    (cs : Except String (Option String))
    (hsk : jsFalsy env.stripeSecretKey = false)
    (hpid : jsFalsy env.priceId = false)
    (hmissing : jsFalsy b.email = true ∨ jsFalsy b.userId = true) :
    ((runCheckoutCreate env (.ok b) cs).1 = CheckoutOutcome.missingEmail ∨
     (runCheckoutCreate env (.ok b) cs).1 = CheckoutOutcome.missingUserId) ∧
    checkoutStatus (runCheckoutCreate env (.ok b) cs).1 = 400 ∧
    (runCheckoutCreate env (.ok b) cs).2 = false := by
  by_cases hem : jsFalsy b.email = true
  · have h : runCheckoutCreate env (.ok b) cs = (.missingEmail, false) := by
      simp [runCheckoutCreate, hsk, hpid, hem]
    rw [h]
    exact ⟨Or.inl rfl, rfl, rfl⟩
  · rw [Bool.not_eq_true] at hem
    rcases hmissing with hcon | huid
    · rw [hem] at hcon
      exact absurd hcon (by decide)
    · have h : runCheckoutCreate env (.ok b) cs = (.missingUserId, false) := by
        simp [runCheckoutCreate, hsk, hpid, hem, huid]
      rw [h]
      exact ⟨Or.inr rfl, rfl, rfl⟩

/-- Witness for C9: a body with a userId but no email is answered 400
with the missing-email error and no session creation. -/
theorem checkout_create_input_guard_witness :
    ((runCheckoutCreate cenv9 (.ok cbody9) (.ok (some "url"))).1 =
       CheckoutOutcome.missingEmail ∨
     (runCheckoutCreate cenv9 (.ok cbody9) (.ok (some "url"))).1 =
       CheckoutOutcome.missingUserId) ∧
    checkoutStatus (runCheckoutCreate cenv9 (.ok cbody9) (.ok (some "url"))).1 = 400 ∧
    (runCheckoutCreate cenv9 (.ok cbody9) (.ok (some "url"))).2 = false :=
  checkout_create_input_guard cenv9 cbody9 (.ok (some "url"))
    (by decide) (by decide) (Or.inl (by decide))

end ProposalHQ
